import Mathlib

/-!
Verification development for the SessionReplayer activity-monitor core
(src/activity_monitor/models.py and src/activity_monitor/storage.py).

The pydantic models are embedded shallowly: untrusted input records become
JSON-like values, each pydantic model becomes a Lean structure together with
a validator returning either the parsed value or the list of field errors
(pydantic collects the errors of every offending field, so validators here
accumulate errors rather than stopping at the first).  Python floats are
modelled as rationals and datetime strings are kept verbatim (no claim
depends on datetime or float arithmetic).  The pydantic union
EventModel = Union[ClickEvent, ScrollEvent, MouseMovementEvent,
KeypressEvent, WindowResizeEvent] is embedded as validation of the members
in declaration order, accepting the first member that fully validates.
-/

namespace ActivityMonitor

/-- JSON-like values: the shape of the untrusted input records handed to
pydantic validation in models.py.  Floats are modelled as rationals. -/
inductive JsonValue where
  | str (s : String)
  | int (n : Int)
  | float (q : Rat)
  | bool (b : Bool)
  | list (items : List JsonValue)
  | obj (fields : List (String × JsonValue))

/-- Lookup of a field in an input record, first binding wins (Python dict
keys are unique, so an association list is a faithful model). -/
def getField (o : List (String × JsonValue)) (name : String) : Option JsonValue :=
  match o with
  | [] => none
  | (k, v) :: rest => if k = name then some v else getField rest name

/-- Lax coercion to int, as pydantic applies to `int` fields: ints pass,
integral floats are truncated losslessly, digit strings are parsed. -/
def coerceInt : JsonValue → Option Int
  | .int n => some n
  | .float q => if q.den = 1 then some q.num else none
  | .str s => s.toInt?
  | _ => none

/-- Lax coercion to float (`float` fields accept ints as well). -/
def coerceFloat : JsonValue → Option Rat
  | .float q => some q
  | .int n => some (n : Rat)
  | _ => none

/-- Coercion to bool for `bool` fields. -/
def coerceBool : JsonValue → Option Bool
  | .bool b => some b
  | _ => none

/-- Coercion to str for `str` fields: pydantic v2 does not stringify
numbers, only genuine strings validate. -/
def coerceStr : JsonValue → Option String
  | .str s => some s
  | _ => none

/-- Check of one character of a canonical UUID string: hyphens at offsets
8, 13, 18 and 23, hexadecimal digits elsewhere. -/
def isUuidChar (i : Nat) (c : Char) : Bool :=
  if i = 8 || i = 13 || i = 18 || i = 23 then c = Char.ofNat 45
  else c.isDigit || (97 ≤ c.toNat && c.toNat ≤ 102) || (65 ≤ c.toNat && c.toNat ≤ 70)

/-- Validity of a canonical 36-character UUID string, the model of
pydantic parsing a `uuid.UUID` field from a string. -/
def isUuidString (s : String) : Bool :=
  s.toList.length = 36 && s.toList.enum.all fun p => isUuidChar p.1 p.2

/-- Errors carried out of a validation result; an ok result carries none. -/
def errsOf {α : Type} : Except (List String) α → List String
  | .ok _ => []
  | .error es => es

/-- Boolean test for a failed validation result. -/
def isErr {α : Type} : Except (List String) α → Bool
  | .ok _ => false
  | .error _ => true

/-- Successful value of a validation result, if any. -/
def okValue {α : Type} : Except (List String) α → Option α
  | .ok x => some x
  | .error _ => none

/-- Error-accumulating pairing of two field validations: pydantic records
the errors of every offending field, not just the first. -/
def comb2 {α β : Type} (a : Except (List String) α) (b : Except (List String) β) :
    Except (List String) (α × β) :=
  match a, b with
  | .ok x, .ok y => .ok (x, y)
  | _, _ => .error (errsOf a ++ errsOf b)

/-- Required `str` field. -/
def parseStrField (o : List (String × JsonValue)) (name : String) :
    Except (List String) String :=
  match getField o name with
  | none => .error [name ++ ": missing"]
  | some v =>
    match coerceStr v with
    | some s => .ok s
    | none => .error [name ++ ": string_type"]

/-- Required `int` field. -/
def parseIntField (o : List (String × JsonValue)) (name : String) :
    Except (List String) Int :=
  match getField o name with
  | none => .error [name ++ ": missing"]
  | some v =>
    match coerceInt v with
    | some n => .ok n
    | none => .error [name ++ ": int_type"]

/-- Required `float` field. -/
def parseFloatField (o : List (String × JsonValue)) (name : String) :
    Except (List String) Rat :=
  match getField o name with
  | none => .error [name ++ ": missing"]
  | some v =>
    match coerceFloat v with
    | some q => .ok q
    | none => .error [name ++ ": float_type"]

/-- Optional `bool` field with a declared default, as used by the four
modifier flags of KeypressPayload. -/
def parseBoolFieldDefault (o : List (String × JsonValue)) (name : String) (dflt : Bool) :
    Except (List String) Bool :=
  match getField o name with
  | none => .ok dflt
  | some v =>
    match coerceBool v with
    | some b => .ok b
    | none => .error [name ++ ": bool_type"]

/-- Element-wise validation of a `List[str]` value, reporting the index of
every element that is not a string. -/
def coerceStrList (name : String) : List JsonValue → Nat → Except (List String) (List String)
  | [], _ => .ok []
  | v :: rest, i =>
    match coerceStr v, coerceStrList name rest (i + 1) with
    | some s, .ok ss => .ok (s :: ss)
    | some _, .error es => .error es
    | none, .ok _ => .error [name ++ "." ++ toString i ++ ": string_type"]
    | none, .error es => .error ((name ++ "." ++ toString i ++ ": string_type") :: es)

/-- Optional `List[str]` field whose declared default is the empty list,
the model of ClickPayload.element_classes. -/
def parseStrListDefault (o : List (String × JsonValue)) (name : String) :
    Except (List String) (List String) :=
  match getField o name with
  | none => .ok []
  | some (.list xs) => coerceStrList name xs 0
  | some _ => .error [name ++ ": list_type"]

/-- Element-wise validation of a `Dict[str, int]` value: every key is kept
verbatim and every value must coerce to int; offending keys are all
reported. -/
def coerceIntDict (name : String) : List (String × JsonValue) → Except (List String) (List (String × Int))
  | [] => .ok []
  | (k, v) :: rest =>
    match coerceInt v, coerceIntDict name rest with
    | some n, .ok kvs => .ok ((k, n) :: kvs)
    | some _, .error es => .error es
    | none, .ok _ => .error [name ++ "." ++ k ++ ": int_type"]
    | none, .error es => .error ((name ++ "." ++ k ++ ": int_type") :: es)

/-- Required `Dict[str, int]` field, the model of ClickPayload.position.
The declared type constrains keys to strings and values to ints only; no
particular key set is demanded. -/
def parseIntDictField (o : List (String × JsonValue)) (name : String) :
    Except (List String) (List (String × Int)) :=
  match getField o name with
  | none => .error [name ++ ": missing"]
  | some (.obj kvs) => coerceIntDict name kvs
  | some _ => .error [name ++ ": dict_type"]

/-- Element-wise validation of a `List[Dict[str, int]]` value, the model of
MouseMovementPayload.positions elements. -/
def coerceIntDictList (name : String) : List JsonValue → Nat → Except (List String) (List (List (String × Int)))
  | [], _ => .ok []
  | v :: rest, i =>
    match
      (match v with
       | .obj kvs => coerceIntDict (name ++ "." ++ toString i) kvs
       | _ => .error [name ++ "." ++ toString i ++ ": dict_type"]),
      coerceIntDictList name rest (i + 1) with
    | .ok d, .ok ds => .ok (d :: ds)
    | .ok _, .error es => .error es
    | .error es, .ok _ => .error es
    | .error es, .error es2 => .error (es ++ es2)

/-- Required `List[Dict[str, int]]` field. -/
def parseDictListField (o : List (String × JsonValue)) (name : String) :
    Except (List String) (List (List (String × Int))) :=
  match getField o name with
  | none => .error [name ++ ": missing"]
  | some (.list xs) => coerceIntDictList name xs 0
  | some _ => .error [name ++ ": list_type"]

/-- Payload model for click events (models.py lines 33-49): required
element_id, element_classes defaulting to the empty list, and a required
position mapping typed Dict[str, int]. -/
structure ClickPayload where
  element_id : String
  element_classes : List String
  position : List (String × Int)

/-- Payload model for scroll events (models.py lines 51-71). -/
structure ScrollPayload where
  scroll_depth_px : Int
  scroll_depth_percent : Rat
  viewport_height : Int
  document_height : Int

/-- Payload model for mouse movement events (models.py lines 73-89). -/
structure MouseMovementPayload where
  positions : List (List (String × Int))
  button : String
  duration_ms : Int

/-- Payload model for keypress events (models.py lines 91-123). -/
structure KeypressPayload where
  key : String
  code : String
  alt_key : Bool
  ctrl_key : Bool
  shift_key : Bool
  meta_key : Bool
  target_element_id : String

/-- Payload model for window resize events (models.py lines 125-145). -/
structure WindowResizePayload where
  old_width : Int
  old_height : Int
  new_width : Int
  new_height : Int

/-- Validation of a ClickPayload input, accumulating the errors of every
offending field in declaration order. -/
def parseClickPayload (o : List (String × JsonValue)) : Except (List String) ClickPayload :=
  match comb2 (parseStrField o "element_id")
      (comb2 (parseStrListDefault o "element_classes") (parseIntDictField o "position")) with
  | .ok (a, b, c) => .ok ⟨a, b, c⟩
  | .error es => .error es

/-- Validation of a ScrollPayload input. -/
def parseScrollPayload (o : List (String × JsonValue)) : Except (List String) ScrollPayload :=
  match comb2 (parseIntField o "scroll_depth_px")
      (comb2 (parseFloatField o "scroll_depth_percent")
        (comb2 (parseIntField o "viewport_height") (parseIntField o "document_height"))) with
  | .ok (a, b, c, d) => .ok ⟨a, b, c, d⟩
  | .error es => .error es

/-- Validation of a MouseMovementPayload input. -/
def parseMouseMovementPayload (o : List (String × JsonValue)) :
    Except (List String) MouseMovementPayload :=
  match comb2 (parseDictListField o "positions")
      (comb2 (parseStrField o "button") (parseIntField o "duration_ms")) with
  | .ok (a, b, c) => .ok ⟨a, b, c⟩
  | .error es => .error es

/-- Validation of a KeypressPayload input; the four modifier flags default
to false. -/
def parseKeypressPayload (o : List (String × JsonValue)) : Except (List String) KeypressPayload :=
  match comb2 (parseStrField o "key")
      (comb2 (parseStrField o "code")
        (comb2 (parseBoolFieldDefault o "alt_key" false)
          (comb2 (parseBoolFieldDefault o "ctrl_key" false)
            (comb2 (parseBoolFieldDefault o "shift_key" false)
              (comb2 (parseBoolFieldDefault o "meta_key" false)
                (parseStrField o "target_element_id")))))) with
  | .ok (a, b, c, d, e, f, g) => .ok ⟨a, b, c, d, e, f, g⟩
  | .error es => .error es

/-- Validation of a WindowResizePayload input. -/
def parseWindowResizePayload (o : List (String × JsonValue)) :
    Except (List String) WindowResizePayload :=
  match comb2 (parseIntField o "old_width")
      (comb2 (parseIntField o "old_height")
        (comb2 (parseIntField o "new_width") (parseIntField o "new_height"))) with
  | .ok (a, b, c, d) => .ok ⟨a, b, c, d⟩
  | .error es => .error es

/-- Common envelope of every activity event (models.py lines 7-31):
session_id and website_id are UUIDs, url a string, timestamp a datetime
defaulting to the ingestion time.  UUIDs and datetimes are kept as the
validated strings. -/
structure BaseEvent where
  session_id : String
  website_id : String
  url : String
  timestamp : String

/-- Required UUID field of the envelope. -/
def parseUuidField (o : List (String × JsonValue)) (name : String) :
    Except (List String) String :=
  match getField o name with
  | none => .error [name ++ ": missing"]
  | some v =>
    match coerceStr v with
    | none => .error [name ++ ": uuid_type"]
    | some s => if isUuidString s then .ok s else .error [name ++ ": uuid_parsing"]

/-- Timestamp field with default_factory=datetime.now: when absent the
ingestion time `now` is used; a present value must be a datetime string,
kept verbatim. -/
def parseTimestampField (now : String) (o : List (String × JsonValue)) :
    Except (List String) String :=
  match getField o "timestamp" with
  | none => .ok now
  | some v =>
    match coerceStr v with
    | some s => .ok s
    | none => .error ["timestamp: datetime_type"]

/-- Validation of the shared envelope fields of BaseEvent. -/
def parseBaseEvent (now : String) (o : List (String × JsonValue)) :
    Except (List String) BaseEvent :=
  match comb2 (parseUuidField o "session_id")
      (comb2 (parseUuidField o "website_id")
        (comb2 (parseStrField o "url") (parseTimestampField now o))) with
  | .ok (a, b, c, d) => .ok ⟨a, b, c, d⟩
  | .error es => .error es

/-- Shape shared by the five concrete event classes of models.py lines
147-215: the envelope, an event_type field declared `str` (with a
per-variant default literal and no further constraint), and the
variant-specific payload. -/
structure EventOf (π : Type) where
  toBaseEvent : BaseEvent
  event_type : String
  payload : π

/-- Model for click events (models.py lines 147-159). -/
def ClickEvent : Type := EventOf ClickPayload

/-- Model for scroll events (models.py lines 161-173). -/
def ScrollEvent : Type := EventOf ScrollPayload

/-- Model for mouse movement events (models.py lines 175-187); its
event_type default literal is the string mouse_move. -/
def MouseMovementEvent : Type := EventOf MouseMovementPayload

/-- Model for keypress events (models.py lines 189-201). -/
def KeypressEvent : Type := EventOf KeypressPayload

/-- Model for window resize events (models.py lines 203-215). -/
def WindowResizeEvent : Type := EventOf WindowResizePayload

/-- The event_type field as declared in each event class: type `str`, a
default literal, no validator restricting its value. -/
def parseEventTypeField (dflt : String) (o : List (String × JsonValue)) :
    Except (List String) String :=
  match getField o "event_type" with
  | none => .ok dflt
  | some v =>
    match coerceStr v with
    | some s => .ok s
    | none => .error ["event_type: string_type"]

/-- The required payload field of an event class, validated by the payload
schema of that variant; nested errors are reported under the payload
location. -/
def parsePayloadWith {π : Type} (pf : List (String × JsonValue) → Except (List String) π)
    (o : List (String × JsonValue)) : Except (List String) π :=
  match getField o "payload" with
  | none => .error ["payload: missing"]
  | some (.obj kvs) =>
    match pf kvs with
    | .ok p => .ok p
    | .error es => .error (es.map fun m => "payload." ++ m)
  | some _ => .error ["payload: model_type"]

/-- Validation of one concrete event class: envelope, event_type with the
default literal of the variant, and the payload schema of the variant,
with error accumulation across all fields. -/
def parseEventOf {π : Type} (dflt : String)
    (pf : List (String × JsonValue) → Except (List String) π)
    (now : String) (o : List (String × JsonValue)) : Except (List String) (EventOf π) :=
  match comb2 (parseBaseEvent now o)
      (comb2 (parseEventTypeField dflt o) (parsePayloadWith pf o)) with
  | .ok (b, t, p) => .ok ⟨b, t, p⟩
  | .error es => .error es

/-- Validation into ClickEvent. -/
def parseClickEvent (now : String) (o : List (String × JsonValue)) :
    Except (List String) ClickEvent :=
  parseEventOf "click" parseClickPayload now o

/-- Validation into ScrollEvent. -/
def parseScrollEvent (now : String) (o : List (String × JsonValue)) :
    Except (List String) ScrollEvent :=
  parseEventOf "scroll" parseScrollPayload now o

/-- Validation into MouseMovementEvent; the default tag literal in
models.py line 181 is mouse_move. -/
def parseMouseMovementEvent (now : String) (o : List (String × JsonValue)) :
    Except (List String) MouseMovementEvent :=
  parseEventOf "mouse_move" parseMouseMovementPayload now o

/-- Validation into KeypressEvent. -/
def parseKeypressEvent (now : String) (o : List (String × JsonValue)) :
    Except (List String) KeypressEvent :=
  parseEventOf "keypress" parseKeypressPayload now o

/-- Validation into WindowResizeEvent. -/
def parseWindowResizeEvent (now : String) (o : List (String × JsonValue)) :
    Except (List String) WindowResizeEvent :=
  parseEventOf "window_resize" parseWindowResizePayload now o

/-- The closed union of the five event variants (models.py lines
217-223). -/
inductive EventModel where
  | click (e : ClickEvent)
  | scroll (e : ScrollEvent)
  | mouse_move (e : MouseMovementEvent)
  | keypress (e : KeypressEvent)
  | window_resize (e : WindowResizeEvent)

/-- The event_type carried by a union member. -/
def EventModel.event_type : EventModel → String
  | .click e => e.event_type
  | .scroll e => e.event_type
  | .mouse_move e => e.event_type
  | .keypress e => e.event_type
  | .window_resize e => e.event_type

/-- The envelope carried by a union member. -/
def EventModel.base : EventModel → BaseEvent
  | .click e => e.toBaseEvent
  | .scroll e => e.toBaseEvent
  | .mouse_move e => e.toBaseEvent
  | .keypress e => e.toBaseEvent
  | .window_resize e => e.toBaseEvent

/-- Whether the event_type tag of a union member equals the tag literal of
the variant actually carrying the payload. -/
def EventModel.tagMatchesPayload : EventModel → Bool
  | .click e => e.event_type = "click"
  | .scroll e => e.event_type = "scroll"
  | .mouse_move e => e.event_type = "mouse_move"
  | .keypress e => e.event_type = "keypress"
  | .window_resize e => e.event_type = "window_resize"

/-- The five tag literals that the five event classes declare as their
event_type defaults. -/
def knownEventTags : List String :=
  ["click", "scroll", "mouse_move", "keypress", "window_resize"]

/-- Validation of an input record against the union EventModel: the
members are tried in their declaration order (models.py lines 217-223) and
the first member that fully validates is accepted; when every member fails
the member errors are reported together. -/
def parseEventModel (now : String) (o : List (String × JsonValue)) :
    Except (List String) EventModel :=
  match parseClickEvent now o with
  | .ok e => .ok (.click e)
  | .error es1 =>
    match parseScrollEvent now o with
    | .ok e => .ok (.scroll e)
    | .error es2 =>
      match parseMouseMovementEvent now o with
      | .ok e => .ok (.mouse_move e)
      | .error es3 =>
        match parseKeypressEvent now o with
        | .ok e => .ok (.keypress e)
        | .error es4 =>
          match parseWindowResizeEvent now o with
          | .ok e => .ok (.window_resize e)
          | .error es5 => .error (es1 ++ es2 ++ es3 ++ es4 ++ es5)

/-- First successful attempt among a list of alternatives. -/
def tryAll {α : Type} : List (List (String × JsonValue) → Option α) →
    List (String × JsonValue) → Option α
  | [], _ => none
  | f :: fs, o =>
    match f o with
    | some x => some x
    | none => tryAll fs o

/-- Spec-side definition of the resolution policy in section 4.2 of the
spec: attempt structural matching against each payload schema in the fixed
precedence order Click, Scroll, MouseMovement, Keypress, WindowResize and
accept the first schema that fully validates. -/
def specStructuralResolution (now : String) (o : List (String × JsonValue)) :
    Option EventModel :=
  tryAll
    [fun o => (okValue (parseClickEvent now o)).map EventModel.click,
     fun o => (okValue (parseScrollEvent now o)).map EventModel.scroll,
     fun o => (okValue (parseMouseMovementEvent now o)).map EventModel.mouse_move,
     fun o => (okValue (parseKeypressEvent now o)).map EventModel.keypress,
     fun o => (okValue (parseWindowResizeEvent now o)).map EventModel.window_resize] o

/-- Model for batching multiple events together (models.py lines 225-236):
a required list of union members, with no constraint on its length. -/
structure BatchEventPayload where
  events : List EventModel

/-- Validation of one element of the events list: the element must be a
record and is validated against the union. -/
def validateEventItem (now : String) (v : JsonValue) : Except (List String) EventModel :=
  match v with
  | .obj o => parseEventModel now o
  | _ => .error ["events element: model_type"]

/-- Element-wise validation of the events list: every element is validated
against the union and the failures of every failing element are collected
together, in input order. -/
def validateEventsList (now : String) : List JsonValue → Except (List String) (List EventModel)
  | [] => .ok []
  | v :: rest =>
    match validateEventItem now v, validateEventsList now rest with
    | .ok e, .ok es => .ok (e :: es)
    | .ok _, .error fs => .error fs
    | .error f, .ok _ => .error f
    | .error f, .error fs => .error (f ++ fs)

/-- Validation of a BatchEventPayload input: the events field is required
and must be a list; its elements are validated in order. -/
def parseBatchEventPayload (now : String) (o : List (String × JsonValue)) :
    Except (List String) BatchEventPayload :=
  match getField o "events" with
  | none => .error ["events: missing"]
  | some (.list xs) =>
    match validateEventsList now xs with
    | .ok es => .ok ⟨es⟩
    | .error es => .error es
  | some _ => .error ["events: list_type"]

/-- Model for the batch event response (models.py lines 251-270). -/
structure BatchEventResponse where
  success : Bool
  processed_event_count : Int
  message : String

/-- Python exception values as they matter to storage.py: the builtin
Exception with its message, and pydantic ValidationError with its
collected field errors. -/
inductive PyExc where
  | exc (msg : String)
  | validationError (errs : List String)
  | storageError (msg : String)

/-- Whether an exception value is the dedicated storage error class.
Modelled from the spec: the spec (section 7) names a dedicated
StorageError class wrapping the underlying cause; no such class exists
anywhere in src, so it is modelled as a separate constructor that the
embedded code never produces. -/
def PyExc.isStorageError : PyExc → Bool
  | .storageError _ => true
  | _ => false

/-- Serialization of a parsed int dict back to a JSON value, as
model_dump produces it. -/
def dumpIntDict (kvs : List (String × Int)) : JsonValue :=
  .obj (kvs.map fun p => (p.1, .int p.2))

/-- The model_dump serialization of a ClickPayload. -/
def ClickPayload.model_dump (p : ClickPayload) : List (String × JsonValue) :=
  [("element_id", .str p.element_id),
   ("element_classes", .list (p.element_classes.map JsonValue.str)),
   ("position", dumpIntDict p.position)]

/-- The model_dump serialization of a ScrollPayload. -/
def ScrollPayload.model_dump (p : ScrollPayload) : List (String × JsonValue) :=
  [("scroll_depth_px", .int p.scroll_depth_px),
   ("scroll_depth_percent", .float p.scroll_depth_percent),
   ("viewport_height", .int p.viewport_height),
   ("document_height", .int p.document_height)]

/-- The model_dump serialization of a MouseMovementPayload. -/
def MouseMovementPayload.model_dump (p : MouseMovementPayload) : List (String × JsonValue) :=
  [("positions", .list (p.positions.map dumpIntDict)),
   ("button", .str p.button),
   ("duration_ms", .int p.duration_ms)]

/-- The model_dump serialization of a KeypressPayload. -/
def KeypressPayload.model_dump (p : KeypressPayload) : List (String × JsonValue) :=
  [("key", .str p.key),
   ("code", .str p.code),
   ("alt_key", .bool p.alt_key),
   ("ctrl_key", .bool p.ctrl_key),
   ("shift_key", .bool p.shift_key),
   ("meta_key", .bool p.meta_key),
   ("target_element_id", .str p.target_element_id)]

/-- The model_dump serialization of a WindowResizePayload. -/
def WindowResizePayload.model_dump (p : WindowResizePayload) : List (String × JsonValue) :=
  [("old_width", .int p.old_width),
   ("old_height", .int p.old_height),
   ("new_width", .int p.new_width),
   ("new_height", .int p.new_height)]

/-- The serialized payload of a union member, as event.payload.model_dump()
produces it in storage.py line 66. -/
def EventModel.payload_dump : EventModel → List (String × JsonValue)
  | .click e => e.payload.model_dump
  | .scroll e => e.payload.model_dump
  | .mouse_move e => e.payload.model_dump
  | .keypress e => e.payload.model_dump
  | .window_resize e => e.payload.model_dump

/-- One row of the events table, as built in storage.py lines 60-67:
envelope fields as typed columns and the payload serialized as a
structured blob. -/
structure DbRow where
  session_id : String
  website_id : String
  url : String
  timestamp : String
  event_type : String
  payload : List (String × JsonValue)

/-- A database session: rows already committed and visible to readers,
rows added but not yet committed, and an injected backend fault — when
commitFails is some msg, commit raises msg instead of committing. -/
structure DbSession where
  committed : List DbRow
  pending : List DbRow
  commitFails : Option String

/-- The add operation of the session: stages a row without making it
visible. -/
def DbSession.add (s : DbSession) (r : DbRow) : DbSession :=
  { s with pending := s.pending ++ [r] }

/-- The commit operation of the session: atomically makes every staged row
visible, or raises the injected backend fault. -/
def DbSession.commit (s : DbSession) : Except String DbSession :=
  match s.commitFails with
  | some msg => .error msg
  | none => .ok { s with committed := s.committed ++ s.pending, pending := [] }

/-- The rollback operation of the session: discards every staged row. -/
def DbSession.rollback (s : DbSession) : DbSession :=
  { s with pending := [] }

/-- The row an event is mapped onto (storage.py lines 60-67). -/
def eventToRow (e : EventModel) : DbRow :=
  ⟨e.base.session_id, e.base.website_id, e.base.url, e.base.timestamp,
   e.event_type, e.payload_dump⟩

/-- A storage service that saves events to a PostgreSQL database
(storage.py lines 44-72), holding its database session. -/
structure PostgreSQLStorageService where
  db_session : DbSession

/-- The store_event operation of storage.py lines 55-72: map the event to
a row, add it, commit; on any failure roll the transaction back and raise
a builtin Exception whose message wraps the underlying cause.  The result
pairs the resulting service state with the raised exception, if any. -/
def PostgreSQLStorageService.store_event (svc : PostgreSQLStorageService) (e : EventModel) :
    PostgreSQLStorageService × Option PyExc :=
  let s1 := svc.db_session.add (eventToRow e)
  match s1.commit with
  | .ok s2 => (⟨s2⟩, none)
  | .error cause => (⟨s1.rollback⟩, some (.exc ("Failed to store event: " ++ cause)))

/-- The frozen flag of the pydantic model configuration in models.py: the
Config blocks set orm_mode and from_attributes only, so the pydantic
default frozen=False applies and attribute assignment is permitted. -/
def modelConfigFrozen : Bool := false

/-- Attribute assignment to the event_type field of an event instance, as
pydantic performs it: rejected only when the model is configured frozen. -/
def EventOf.assign_event_type {π : Type} (e : EventOf π) (v : String) :
    Except PyExc (EventOf π) :=
  if modelConfigFrozen then .error (.exc "Instance is frozen")
  else .ok { e with event_type := v }

/-- Attribute assignment to the url envelope field of an event instance. -/
def EventOf.assign_url {π : Type} (e : EventOf π) (v : String) :
    Except PyExc (EventOf π) :=
  if modelConfigFrozen then .error (.exc "Instance is frozen")
  else .ok { e with toBaseEvent := { e.toBaseEvent with url := v } }

/-- Attribute assignment to the payload field of an event instance. -/
def EventOf.assign_payload {π : Type} (e : EventOf π) (p : π) :
    Except PyExc (EventOf π) :=
  if modelConfigFrozen then .error (.exc "Instance is frozen")
  else .ok { e with payload := p }

/-- A canonical UUID string used in concrete instances. -/
def uuidA : String := "123e4567-e89b-12d3-a456-426614174000"

/-- A second canonical UUID string used in concrete instances. -/
def uuidB : String := "00000000-0000-0000-0000-000000000000"

/-- A concrete url used in concrete instances. -/
def urlA : String := "https://example.com/page"

/-- A concrete ingestion time used in concrete instances. -/
def tsA : String := "2026-01-01T00:00:00"

/-- Input record for a full event: envelope fields, an explicit
event_type tag and a payload object. -/
def eventObj (sid wid url ts tag : String) (payload : List (String × JsonValue)) :
    List (String × JsonValue) :=
  [("session_id", .str sid), ("website_id", .str wid), ("url", .str url),
   ("timestamp", .str ts), ("event_type", .str tag), ("payload", .obj payload)]

/-- Input record for a full event without an explicit event_type tag. -/
def eventObjNoTag (sid wid url ts : String) (payload : List (String × JsonValue)) :
    List (String × JsonValue) :=
  [("session_id", .str sid), ("website_id", .str wid), ("url", .str url),
   ("timestamp", .str ts), ("payload", .obj payload)]

/-- Well-typed click payload input built from the field values. -/
def clickObj (eid : String) (ecs : List String) (pos : List (String × Int)) :
    List (String × JsonValue) :=
  [("element_id", .str eid),
   ("element_classes", .list (ecs.map JsonValue.str)),
   ("position", .obj (pos.map fun p => (p.1, JsonValue.int p.2)))]

/-- Well-typed scroll payload input built from the field values. -/
def scrollObj (a : Int) (b : Rat) (c d : Int) : List (String × JsonValue) :=
  [("scroll_depth_px", .int a), ("scroll_depth_percent", .float b),
   ("viewport_height", .int c), ("document_height", .int d)]

/-- Well-typed mouse movement payload input built from the field values. -/
def mouseObj (mpos : List (List (String × Int))) (btn : String) (dur : Int) :
    List (String × JsonValue) :=
  [("positions", .list (mpos.map fun d => JsonValue.obj (d.map fun p => (p.1, JsonValue.int p.2)))),
   ("button", .str btn), ("duration_ms", .int dur)]

/-- Well-typed keypress payload input built from the field values. -/
def keypressObj (key code : String) (altk ctrlk shiftk metak : Bool) (tgt : String) :
    List (String × JsonValue) :=
  [("key", .str key), ("code", .str code), ("alt_key", .bool altk),
   ("ctrl_key", .bool ctrlk), ("shift_key", .bool shiftk), ("meta_key", .bool metak),
   ("target_element_id", .str tgt)]

/-- Well-typed window resize payload input built from the field values. -/
def windowObj (ow oh nw nh : Int) : List (String × JsonValue) :=
  [("old_width", .int ow), ("old_height", .int oh),
   ("new_width", .int nw), ("new_height", .int nh)]

/-- Click payload input carrying a position mapping but no
element_classes field. -/
def clickObjNoClasses (eid : String) (pos : List (String × Int)) :
    List (String × JsonValue) :=
  [("element_id", .str eid),
   ("position", .obj (pos.map fun p => (p.1, JsonValue.int p.2)))]

/-- A concrete click event instance. -/
def evC : ClickEvent :=
  ⟨⟨uuidA, uuidB, urlA, tsA⟩, "click", ⟨"btn", [], [("x", 10), ("y", 20)]⟩⟩

/-- The concrete click event as a union member. -/
def emC : EventModel := .click evC

/-- A storage service whose session is set to fail at commit with the
cause boom. -/
def svcFail : PostgreSQLStorageService := ⟨⟨[], [], some "boom"⟩⟩

/-- A click payload input with several offending fields at once: the
required element_id and position are absent and an element_classes entry
is not a string. -/
def badClickInput : List (String × JsonValue) :=
  [("element_classes", JsonValue.list [JsonValue.int 3])]

/-- A one-element batch input whose single element is a valid click
record. -/
def batchInput : List JsonValue :=
  [JsonValue.obj (eventObj uuidA uuidB urlA tsA "click" (clickObj "btn" [] [("x", 10), ("y", 20)]))]

theorem errsOf_comb2 {α β : Type} (a : Except (List String) α) (b : Except (List String) β) :
    errsOf (comb2 a b) = errsOf a ++ errsOf b := by
  cases a <;> cases b <;> simp [comb2, errsOf]

theorem isErr_comb2 {α β : Type} (a : Except (List String) α) (b : Except (List String) β) :
    isErr (comb2 a b) = (isErr a || isErr b) := by
  cases a <;> cases b <;> simp [comb2, isErr]

theorem comb2_eq_ok {α β : Type} {a : Except (List String) α} {b : Except (List String) β}
    {x : α} {y : β} : comb2 a b = .ok (x, y) ↔ a = .ok x ∧ b = .ok y := by
  cases a <;> cases b <;> simp [comb2]

theorem comb2_eq_error {α β : Type} {a : Except (List String) α} {b : Except (List String) β}
    {es : List String} (h : comb2 a b = .error es) : es = errsOf a ++ errsOf b := by
  cases a <;> cases b <;> simp_all [comb2]

theorem coerceStrList_map (name : String) (ss : List String) (i : Nat) :
    coerceStrList name (ss.map JsonValue.str) i = .ok ss := by
  induction ss generalizing i with
  | nil => rfl
  | cons s rest ih => simp [coerceStrList, coerceStr, ih]

theorem coerceIntDict_map (name : String) (kvs : List (String × Int)) :
    coerceIntDict name (kvs.map fun p => (p.1, JsonValue.int p.2)) = .ok kvs := by
  induction kvs with
  | nil => rfl
  | cons kv rest ih => simp [coerceIntDict, coerceInt, ih]

theorem coerceIntDictList_map (name : String) (ds : List (List (String × Int))) (i : Nat) :
    coerceIntDictList name
      (ds.map fun d => JsonValue.obj (d.map fun p => (p.1, JsonValue.int p.2))) i = .ok ds := by
  induction ds generalizing i with
  | nil => rfl
  | cons d rest ih => simp [coerceIntDictList, coerceIntDict_map, ih]

theorem parseClickPayload_clickObj (eid : String) (ecs : List String)
    (pos : List (String × Int)) :
    parseClickPayload (clickObj eid ecs pos) = .ok ⟨eid, ecs, pos⟩ := by
  have h1 : parseStrField (clickObj eid ecs pos) "element_id" = .ok eid := rfl
  have h2 : parseStrListDefault (clickObj eid ecs pos) "element_classes" =
      coerceStrList "element_classes" (ecs.map JsonValue.str) 0 := rfl
  have h3 : parseIntDictField (clickObj eid ecs pos) "position" =
      coerceIntDict "position" (pos.map fun p => (p.1, JsonValue.int p.2)) := rfl
  simp [parseClickPayload, h1, h2, h3, coerceStrList_map, coerceIntDict_map, comb2]

theorem parseMouseMovementPayload_mouseObj (mpos : List (List (String × Int)))
    (btn : String) (dur : Int) :
    parseMouseMovementPayload (mouseObj mpos btn dur) = .ok ⟨mpos, btn, dur⟩ := by
  have h1 : parseDictListField (mouseObj mpos btn dur) "positions" =
      coerceIntDictList "positions"
        (mpos.map fun d => JsonValue.obj (d.map fun p => (p.1, JsonValue.int p.2))) 0 := rfl
  have h2 : parseStrField (mouseObj mpos btn dur) "button" = .ok btn := rfl
  have h3 : parseIntField (mouseObj mpos btn dur) "duration_ms" = .ok dur := rfl
  simp [parseMouseMovementPayload, h1, h2, h3, coerceIntDictList_map, comb2]

theorem parseBaseEvent_eventObj (now sid wid url ts tag : String)
    (p : List (String × JsonValue)) (hs : isUuidString sid = true)
    (hw : isUuidString wid = true) :
    parseBaseEvent now (eventObj sid wid url ts tag p) = .ok ⟨sid, wid, url, ts⟩ := by
  have h1 : getField (eventObj sid wid url ts tag p) "session_id" = some (.str sid) := rfl
  have h2 : getField (eventObj sid wid url ts tag p) "website_id" = some (.str wid) := rfl
  have h3 : getField (eventObj sid wid url ts tag p) "url" = some (.str url) := rfl
  have h4 : getField (eventObj sid wid url ts tag p) "timestamp" = some (.str ts) := rfl
  simp [parseBaseEvent, parseUuidField, parseStrField, parseTimestampField,
    h1, h2, h3, h4, coerceStr, hs, hw, comb2]

theorem parseBaseEvent_eventObjNoTag (now sid wid url ts : String)
    (p : List (String × JsonValue)) (hs : isUuidString sid = true)
    (hw : isUuidString wid = true) :
    parseBaseEvent now (eventObjNoTag sid wid url ts p) = .ok ⟨sid, wid, url, ts⟩ := by
  have h1 : getField (eventObjNoTag sid wid url ts p) "session_id" = some (.str sid) := rfl
  have h2 : getField (eventObjNoTag sid wid url ts p) "website_id" = some (.str wid) := rfl
  have h3 : getField (eventObjNoTag sid wid url ts p) "url" = some (.str url) := rfl
  have h4 : getField (eventObjNoTag sid wid url ts p) "timestamp" = some (.str ts) := rfl
  simp [parseBaseEvent, parseUuidField, parseStrField, parseTimestampField,
    h1, h2, h3, h4, coerceStr, hs, hw, comb2]

theorem parseEventTypeField_eventObj (d sid wid url ts tag : String)
    (p : List (String × JsonValue)) :
    parseEventTypeField d (eventObj sid wid url ts tag p) = .ok tag := rfl

theorem parseEventTypeField_eventObjNoTag (d sid wid url ts : String)
    (p : List (String × JsonValue)) :
    parseEventTypeField d (eventObjNoTag sid wid url ts p) = .ok d := rfl

theorem parsePayloadWith_eventObj {π : Type}
    (pf : List (String × JsonValue) → Except (List String) π)
    (sid wid url ts tag : String) (p : List (String × JsonValue)) :
    parsePayloadWith pf (eventObj sid wid url ts tag p) =
      (match pf p with
       | .ok x => .ok x
       | .error es => .error (es.map fun m => "payload." ++ m)) := rfl

theorem parsePayloadWith_eventObjNoTag {π : Type}
    (pf : List (String × JsonValue) → Except (List String) π)
    (sid wid url ts : String) (p : List (String × JsonValue)) :
    parsePayloadWith pf (eventObjNoTag sid wid url ts p) =
      (match pf p with
       | .ok x => .ok x
       | .error es => .error (es.map fun m => "payload." ++ m)) := rfl

theorem parseEventOf_ok {π : Type} {dflt : String}
    {pf : List (String × JsonValue) → Except (List String) π}
    {now : String} {o : List (String × JsonValue)} {b : BaseEvent} {t : String} {p : π}
    (hb : parseBaseEvent now o = .ok b) (ht : parseEventTypeField dflt o = .ok t)
    (hp : parsePayloadWith pf o = .ok p) :
    parseEventOf dflt pf now o = .ok ⟨b, t, p⟩ := by
  simp [parseEventOf, hb, ht, hp, comb2]

theorem isErr_parseEventOf_payload {π : Type} {dflt : String}
    {pf : List (String × JsonValue) → Except (List String) π}
    {now : String} {o : List (String × JsonValue)}
    (hp : isErr (parsePayloadWith pf o) = true) :
    isErr (parseEventOf dflt pf now o) = true := by
  cases hpp : parsePayloadWith pf o with
  | ok p => rw [hpp] at hp; simp [isErr] at hp
  | error es =>
    cases hb : parseBaseEvent now o <;> cases ht : parseEventTypeField dflt o <;>
      simp [parseEventOf, hb, ht, hpp, comb2, isErr]

theorem parseEventOf_ok_inv {π : Type} {dflt : String}
    {pf : List (String × JsonValue) → Except (List String) π}
    {now : String} {o : List (String × JsonValue)} {ev : EventOf π}
    (h : parseEventOf dflt pf now o = .ok ev) :
    parseBaseEvent now o = .ok ev.toBaseEvent ∧
      parseEventTypeField dflt o = .ok ev.event_type ∧
      parsePayloadWith pf o = .ok ev.payload := by
  cases hb : parseBaseEvent now o <;> cases ht : parseEventTypeField dflt o <;>
      cases hp : parsePayloadWith pf o <;>
    simp [parseEventOf, hb, ht, hp, comb2] at h
  simp [← h]

theorem parseEventModel_click {now : String} {o : List (String × JsonValue)} {e : ClickEvent}
    (h : parseClickEvent now o = .ok e) :
    parseEventModel now o = .ok (.click e) := by
  simp [parseEventModel, h]

theorem parseEventModel_scroll {now : String} {o : List (String × JsonValue)} {e : ScrollEvent}
    (h1 : isErr (parseClickEvent now o) = true)
    (h2 : parseScrollEvent now o = .ok e) :
    parseEventModel now o = .ok (.scroll e) := by
  cases hc : parseClickEvent now o with
  | ok e2 => rw [hc] at h1; simp [isErr] at h1
  | error es => simp [parseEventModel, hc, h2]

theorem parseEventModel_mouse_move {now : String} {o : List (String × JsonValue)}
    {e : MouseMovementEvent}
    (h1 : isErr (parseClickEvent now o) = true)
    (h2 : isErr (parseScrollEvent now o) = true)
    (h3 : parseMouseMovementEvent now o = .ok e) :
    parseEventModel now o = .ok (.mouse_move e) := by
  cases hc : parseClickEvent now o with
  | ok e2 => rw [hc] at h1; simp [isErr] at h1
  | error es1 =>
    cases hsc : parseScrollEvent now o with
    | ok e2 => rw [hsc] at h2; simp [isErr] at h2
    | error es2 => simp [parseEventModel, hc, hsc, h3]

theorem parseEventModel_keypress {now : String} {o : List (String × JsonValue)}
    {e : KeypressEvent}
    (h1 : isErr (parseClickEvent now o) = true)
    (h2 : isErr (parseScrollEvent now o) = true)
    (h3 : isErr (parseMouseMovementEvent now o) = true)
    (h4 : parseKeypressEvent now o = .ok e) :
    parseEventModel now o = .ok (.keypress e) := by
  cases hc : parseClickEvent now o with
  | ok e2 => rw [hc] at h1; simp [isErr] at h1
  | error es1 =>
    cases hsc : parseScrollEvent now o with
    | ok e2 => rw [hsc] at h2; simp [isErr] at h2
    | error es2 =>
      cases hm : parseMouseMovementEvent now o with
      | ok e2 => rw [hm] at h3; simp [isErr] at h3
      | error es3 => simp [parseEventModel, hc, hsc, hm, h4]

theorem parseEventModel_window_resize {now : String} {o : List (String × JsonValue)}
    {e : WindowResizeEvent}
    (h1 : isErr (parseClickEvent now o) = true)
    (h2 : isErr (parseScrollEvent now o) = true)
    (h3 : isErr (parseMouseMovementEvent now o) = true)
    (h4 : isErr (parseKeypressEvent now o) = true)
    (h5 : parseWindowResizeEvent now o = .ok e) :
    parseEventModel now o = .ok (.window_resize e) := by
  cases hc : parseClickEvent now o with
  | ok e2 => rw [hc] at h1; simp [isErr] at h1
  | error es1 =>
    cases hsc : parseScrollEvent now o with
    | ok e2 => rw [hsc] at h2; simp [isErr] at h2
    | error es2 =>
      cases hm : parseMouseMovementEvent now o with
      | ok e2 => rw [hm] at h3; simp [isErr] at h3
      | error es3 =>
        cases hk : parseKeypressEvent now o with
        | ok e2 => rw [hk] at h4; simp [isErr] at h4
        | error es4 => simp [parseEventModel, hc, hsc, hm, hk, h5]

theorem isErr_parseEventModel {now : String} {o : List (String × JsonValue)}
    (h1 : isErr (parseClickEvent now o) = true)
    (h2 : isErr (parseScrollEvent now o) = true)
    (h3 : isErr (parseMouseMovementEvent now o) = true)
    (h4 : isErr (parseKeypressEvent now o) = true)
    (h5 : isErr (parseWindowResizeEvent now o) = true) :
    isErr (parseEventModel now o) = true := by
  cases hc : parseClickEvent now o with
  | ok e2 => rw [hc] at h1; simp [isErr] at h1
  | error es1 =>
    cases hsc : parseScrollEvent now o with
    | ok e2 => rw [hsc] at h2; simp [isErr] at h2
    | error es2 =>
      cases hm : parseMouseMovementEvent now o with
      | ok e2 => rw [hm] at h3; simp [isErr] at h3
      | error es3 =>
        cases hk : parseKeypressEvent now o with
        | ok e2 => rw [hk] at h4; simp [isErr] at h4
        | error es4 =>
          cases hw2 : parseWindowResizeEvent now o with
          | ok e2 => rw [hw2] at h5; simp [isErr] at h5
          | error es5 => simp [parseEventModel, hc, hsc, hm, hk, hw2, isErr]

/-- C1 counterexample: the claim that invalid tag/payload combinations
are unrepresentable or rejected at construction is false — an input whose
payload validates as ClickPayload but whose event_type is the literal
scroll is accepted, producing a ClickEvent carrying the tag scroll. -/
theorem c1_counterexample :
    parseEventModel tsA
      (eventObj uuidA uuidB urlA tsA "scroll" (clickObj "btn" [] [("x", 10), ("y", 20)])) =
      .ok (.click ⟨⟨uuidA, uuidB, urlA, tsA⟩, "scroll", ⟨"btn", [], [("x", 10), ("y", 20)]⟩⟩) ∧
    EventModel.tagMatchesPayload
      (.click ⟨⟨uuidA, uuidB, urlA, tsA⟩, "scroll", ⟨"btn", [], [("x", 10), ("y", 20)]⟩⟩) = false := by
  exact ⟨rfl, rfl⟩

/-- C1 (amended): each event class pairs a fixed payload type with an
event_type field that is a plain string defaulting to the variant tag; any
tag string whatsoever, including another variant's tag, is accepted at
construction, so mismatched tag/payload combinations are representable. -/
theorem c1_event_type_unconstrained (tag : String) :
    parseEventModel tsA
      (eventObj uuidA uuidB urlA tsA tag (clickObj "btn" [] [("x", 10), ("y", 20)])) =
      .ok (.click ⟨⟨uuidA, uuidB, urlA, tsA⟩, tag, ⟨"btn", [], [("x", 10), ("y", 20)]⟩⟩) := rfl

/-- C2 counterexample: when the commit of store_event fails, the raised
exception is the builtin Exception of storage.py line 72, not a dedicated
StorageError class — no such class exists in the code. -/
theorem c2_counterexample :
    ((svcFail.store_event emC).2.map PyExc.isStorageError = some false) ∧
    (svcFail.store_event emC).1.db_session.committed = [] := by
  exact ⟨rfl, rfl⟩

/-- C2 (amended): if the commit of store_event fails, the transaction is
rolled back — the committed rows are unchanged and no staged row remains
— and the operation fails with a builtin Exception whose message wraps
the underlying cause (the code defines no dedicated StorageError class). -/
theorem c2_store_event_rollback (svc : PostgreSQLStorageService) (e : EventModel)
    (msg : String) (h : svc.db_session.commitFails = some msg) :
    (svc.store_event e).2 = some (.exc ("Failed to store event: " ++ msg)) ∧
    (svc.store_event e).1.db_session.committed = svc.db_session.committed ∧
    (svc.store_event e).1.db_session.pending = [] := by
  simp [PostgreSQLStorageService.store_event, DbSession.add, DbSession.commit,
    DbSession.rollback, h]

/-- C2 witness: the rollback theorem applied to the failing session. -/
theorem c2_store_event_rollback_witness :
    svcFail.db_session.commitFails = some "boom" ∧
    ((svcFail.store_event emC).2 = some (.exc ("Failed to store event: " ++ "boom")) ∧
      (svcFail.store_event emC).1.db_session.committed = svcFail.db_session.committed ∧
      (svcFail.store_event emC).1.db_session.pending = []) := by
  exact ⟨rfl, c2_store_event_rollback svcFail emC "boom" rfl⟩

/-- C8 counterexample: events are not immutable after construction —
assigning to event_type succeeds and yields an event whose tag differs
from the constructed one. -/
theorem c8_counterexample :
    EventOf.assign_event_type evC "tampered" =
      .ok ⟨evC.toBaseEvent, "tampered", evC.payload⟩ ∧
    ("tampered" : String) ≠ evC.event_type := by
  refine ⟨rfl, ?_⟩
  intro h
  simp [evC] at h

/-- C8 (amended): events are mutable after construction — the models are
not configured frozen, so assignment to the event_type tag, to an envelope
field such as url, and to the payload all succeed and replace the stored
value. -/
theorem c8_events_mutable {π : Type} (e : EventOf π) (v u : String) (p : π) :
    e.assign_event_type v = .ok ⟨e.toBaseEvent, v, e.payload⟩ ∧
    e.assign_url u =
      .ok ⟨⟨e.toBaseEvent.session_id, e.toBaseEvent.website_id, u, e.toBaseEvent.timestamp⟩,
        e.event_type, e.payload⟩ ∧
    e.assign_payload p = .ok ⟨e.toBaseEvent, e.event_type, p⟩ ∧
    modelConfigFrozen = false := by
  refine ⟨?_, ?_, ?_, rfl⟩ <;>
    simp [EventOf.assign_event_type, EventOf.assign_url, EventOf.assign_payload,
      modelConfigFrozen]

/-- C9 counterexample: a click payload whose position mapping carries the
extra key z is accepted by validation and keeps all three keys, so the key
set of an accepted position mapping is not exactly x and y. -/
theorem c9_counterexample :
    parseClickPayload
      [("element_id", JsonValue.str "btn"),
       ("position", JsonValue.obj [("x", JsonValue.int 10), ("y", JsonValue.int 20), ("z", JsonValue.int 5)])] =
      .ok ⟨"btn", [], [("x", 10), ("y", 20), ("z", 5)]⟩ ∧
    (ClickPayload.position ⟨"btn", [], [("x", 10), ("y", 20), ("z", 5)]⟩).map Prod.fst ≠ ["x", "y"] := by
  refine ⟨rfl, ?_⟩
  intro h
  simp at h

/-- C9 (amended): the position field is typed Dict[str, int] with no
constraint on its key set — validation accepts any string-keyed integer
mapping and preserves its keys and values verbatim, whether or not the
keys are exactly x and y. -/
theorem c9_position_keys_unconstrained (eid : String) (pos : List (String × Int)) :
    parseClickPayload (clickObjNoClasses eid pos) = .ok ⟨eid, [], pos⟩ := by
  have h1 : parseStrField (clickObjNoClasses eid pos) "element_id" = .ok eid := rfl
  have h2 : parseStrListDefault (clickObjNoClasses eid pos) "element_classes" = .ok [] := rfl
  have h3 : parseIntDictField (clickObjNoClasses eid pos) "position" =
      coerceIntDict "position" (pos.map fun p => (p.1, JsonValue.int p.2)) := rfl
  simp [parseClickPayload, h1, h2, h3, coerceIntDict_map, comb2]

/-- C10: when an event record carries no explicit event_type value, the
tag defaults per variant to the literals click, scroll, mouse_move,
keypress and window_resize — in particular the mouse movement tag is
mouse_move, not mouse_movement. -/
theorem c10_default_event_type_tags :
    parseEventModel tsA (eventObjNoTag uuidA uuidB urlA tsA (clickObj "btn" [] [("x", 10), ("y", 20)])) =
      .ok (.click ⟨⟨uuidA, uuidB, urlA, tsA⟩, "click", ⟨"btn", [], [("x", 10), ("y", 20)]⟩⟩) ∧
    parseEventModel tsA (eventObjNoTag uuidA uuidB urlA tsA (scrollObj 100 55 768 2048)) =
      .ok (.scroll ⟨⟨uuidA, uuidB, urlA, tsA⟩, "scroll", ⟨100, 55, 768, 2048⟩⟩) ∧
    parseEventModel tsA (eventObjNoTag uuidA uuidB urlA tsA (mouseObj [[("x", 1), ("y", 2)]] "left" 250)) =
      .ok (.mouse_move ⟨⟨uuidA, uuidB, urlA, tsA⟩, "mouse_move", ⟨[[("x", 1), ("y", 2)]], "left", 250⟩⟩) ∧
    parseEventModel tsA (eventObjNoTag uuidA uuidB urlA tsA (keypressObj "a" "KeyA" false false false false "input1")) =
      .ok (.keypress ⟨⟨uuidA, uuidB, urlA, tsA⟩, "keypress", ⟨"a", "KeyA", false, false, false, false, "input1"⟩⟩) ∧
    parseEventModel tsA (eventObjNoTag uuidA uuidB urlA tsA (windowObj 800 600 1024 768)) =
      .ok (.window_resize ⟨⟨uuidA, uuidB, urlA, tsA⟩, "window_resize", ⟨800, 600, 1024, 768⟩⟩) := by
  exact ⟨rfl, rfl, rfl, rfl, rfl⟩

/-- C3 counterexample: an input whose payload matches the Scroll schema
but whose explicit event_type is the literal keypress validates fully, yet
resolution produces an Event whose event_type does not match the schema
used — the tag of the input is kept verbatim in a ScrollEvent. -/
theorem c3_counterexample :
    parseEventModel tsA (eventObj uuidA uuidB urlA tsA "keypress" (scrollObj 100 55 768 2048)) =
      .ok (.scroll ⟨⟨uuidA, uuidB, urlA, tsA⟩, "keypress", ⟨100, 55, 768, 2048⟩⟩) ∧
    EventModel.tagMatchesPayload
      (.scroll ⟨⟨uuidA, uuidB, urlA, tsA⟩, "keypress", ⟨100, 55, 768, 2048⟩⟩) = false := by
  exact ⟨rfl, rfl⟩

/-- C3 (amended): for every valid single-event input whose payload matches
one of the five schemas and whose explicit event_type is the tag of that
schema, union resolution produces an Event of that variant whose
event_type equals the input tag and whose payload field values equal the
input field values; the event_type is copied from the input, so it matches
the schema used exactly when the input already carries that variant's tag
(or omits the tag, per C10). -/
theorem c3_round_trip_fidelity (now sid wid url ts : String)
    (hs : isUuidString sid = true) (hw : isUuidString wid = true)
    (eid : String) (ecs : List String) (pos : List (String × Int))
    (sdp : Int) (sdpc : Rat) (vh dh : Int)
    (mpos : List (List (String × Int))) (btn : String) (dur : Int)
    (key code : String) (altk ctrlk shiftk metak : Bool) (tgt : String)
    (ow oh nw nh : Int) :
    parseEventModel now (eventObj sid wid url ts "click" (clickObj eid ecs pos)) =
      .ok (.click ⟨⟨sid, wid, url, ts⟩, "click", ⟨eid, ecs, pos⟩⟩) ∧
    parseEventModel now (eventObj sid wid url ts "scroll" (scrollObj sdp sdpc vh dh)) =
      .ok (.scroll ⟨⟨sid, wid, url, ts⟩, "scroll", ⟨sdp, sdpc, vh, dh⟩⟩) ∧
    parseEventModel now (eventObj sid wid url ts "mouse_move" (mouseObj mpos btn dur)) =
      .ok (.mouse_move ⟨⟨sid, wid, url, ts⟩, "mouse_move", ⟨mpos, btn, dur⟩⟩) ∧
    parseEventModel now
        (eventObj sid wid url ts "keypress" (keypressObj key code altk ctrlk shiftk metak tgt)) =
      .ok (.keypress ⟨⟨sid, wid, url, ts⟩, "keypress", ⟨key, code, altk, ctrlk, shiftk, metak, tgt⟩⟩) ∧
    parseEventModel now (eventObj sid wid url ts "window_resize" (windowObj ow oh nw nh)) =
      .ok (.window_resize ⟨⟨sid, wid, url, ts⟩, "window_resize", ⟨ow, oh, nw, nh⟩⟩) := by
  refine ⟨?_, ?_, ?_, ?_, ?_⟩
  · have hp : parsePayloadWith parseClickPayload
        (eventObj sid wid url ts "click" (clickObj eid ecs pos)) = .ok ⟨eid, ecs, pos⟩ := by
      rw [parsePayloadWith_eventObj, parseClickPayload_clickObj]
    exact parseEventModel_click
      (parseEventOf_ok (parseBaseEvent_eventObj _ _ _ _ _ _ _ hs hw) rfl hp)
  · exact parseEventModel_scroll (isErr_parseEventOf_payload rfl)
      (parseEventOf_ok (parseBaseEvent_eventObj _ _ _ _ _ _ _ hs hw) rfl rfl)
  · have hp : parsePayloadWith parseMouseMovementPayload
        (eventObj sid wid url ts "mouse_move" (mouseObj mpos btn dur)) = .ok ⟨mpos, btn, dur⟩ := by
      rw [parsePayloadWith_eventObj, parseMouseMovementPayload_mouseObj]
    exact parseEventModel_mouse_move (isErr_parseEventOf_payload rfl)
      (isErr_parseEventOf_payload rfl)
      (parseEventOf_ok (parseBaseEvent_eventObj _ _ _ _ _ _ _ hs hw) rfl hp)
  · exact parseEventModel_keypress (isErr_parseEventOf_payload rfl)
      (isErr_parseEventOf_payload rfl) (isErr_parseEventOf_payload rfl)
      (parseEventOf_ok (parseBaseEvent_eventObj _ _ _ _ _ _ _ hs hw) rfl rfl)
  · exact parseEventModel_window_resize (isErr_parseEventOf_payload rfl)
      (isErr_parseEventOf_payload rfl) (isErr_parseEventOf_payload rfl)
      (isErr_parseEventOf_payload rfl)
      (parseEventOf_ok (parseBaseEvent_eventObj _ _ _ _ _ _ _ hs hw) rfl rfl)

/-- C3 witness: the round-trip theorem applied to concrete field values. -/
theorem c3_round_trip_fidelity_witness :
    isUuidString uuidA = true ∧ isUuidString uuidB = true ∧
    (parseEventModel tsA (eventObj uuidA uuidB urlA tsA "click" (clickObj "btn" ["a"] [("x", 10), ("y", 20)])) =
      .ok (.click ⟨⟨uuidA, uuidB, urlA, tsA⟩, "click", ⟨"btn", ["a"], [("x", 10), ("y", 20)]⟩⟩) ∧
    parseEventModel tsA (eventObj uuidA uuidB urlA tsA "scroll" (scrollObj 100 55 768 2048)) =
      .ok (.scroll ⟨⟨uuidA, uuidB, urlA, tsA⟩, "scroll", ⟨100, 55, 768, 2048⟩⟩) ∧
    parseEventModel tsA (eventObj uuidA uuidB urlA tsA "mouse_move" (mouseObj [[("x", 1)]] "left" 250)) =
      .ok (.mouse_move ⟨⟨uuidA, uuidB, urlA, tsA⟩, "mouse_move", ⟨[[("x", 1)]], "left", 250⟩⟩) ∧
    parseEventModel tsA
        (eventObj uuidA uuidB urlA tsA "keypress" (keypressObj "a" "KeyA" true false false false "input1")) =
      .ok (.keypress ⟨⟨uuidA, uuidB, urlA, tsA⟩, "keypress", ⟨"a", "KeyA", true, false, false, false, "input1"⟩⟩) ∧
    parseEventModel tsA (eventObj uuidA uuidB urlA tsA "window_resize" (windowObj 800 600 1024 768)) =
      .ok (.window_resize ⟨⟨uuidA, uuidB, urlA, tsA⟩, "window_resize", ⟨800, 600, 1024, 768⟩⟩)) := by
  exact ⟨by decide, by decide,
    c3_round_trip_fidelity tsA uuidA uuidB urlA tsA (by decide) (by decide)
      "btn" ["a"] [("x", 10), ("y", 20)] 100 55 768 2048 [[("x", 1)]] "left" 250
      "a" "KeyA" true false false false "input1" 800 600 1024 768⟩

/-- C4: when any ClickPayload field offends — a missing required field, a
value of the wrong type, or a list or mapping element failing its nested
constraint — validation fails with the errors of every offending field
enumerated together in field order, any missing required field is named,
no payload value is produced and no Event embedding that payload input can
be produced. -/
theorem c4_schema_error_enumeration (o : List (String × JsonValue))
    (h : isErr (parseStrField o "element_id") = true ∨
      isErr (parseStrListDefault o "element_classes") = true ∨
      isErr (parseIntDictField o "position") = true) :
    parseClickPayload o = .error
      (errsOf (parseStrField o "element_id") ++
        errsOf (parseStrListDefault o "element_classes") ++
        errsOf (parseIntDictField o "position")) ∧
    (getField o "element_id" = none → "element_id: missing" ∈ errsOf (parseStrField o "element_id")) ∧
    (getField o "position" = none → "position: missing" ∈ errsOf (parseIntDictField o "position")) ∧
    (∀ p, parseClickPayload o ≠ .ok p) ∧
    (∀ now o2 ev, getField o2 "payload" = some (.obj o) → parseClickEvent now o2 ≠ .ok ev) := by
  have hmain : parseClickPayload o = .error
      (errsOf (parseStrField o "element_id") ++
        errsOf (parseStrListDefault o "element_classes") ++
        errsOf (parseIntDictField o "position")) := by
    cases h1 : parseStrField o "element_id" <;>
      cases h2 : parseStrListDefault o "element_classes" <;>
        cases h3 : parseIntDictField o "position"
    all_goals rw [h1, h2, h3] at h
    all_goals try (simp [isErr] at h)
    all_goals simp [parseClickPayload, h1, h2, h3, comb2, errsOf, List.append_assoc]
  refine ⟨hmain, ?_, ?_, ?_, ?_⟩
  · intro hg
    have h1 : parseStrField o "element_id" = .error ["element_id: missing"] := by
      simp [parseStrField, hg]
    simp [h1, errsOf]
  · intro hg
    have h3 : parseIntDictField o "position" = .error ["position: missing"] := by
      simp [parseIntDictField, hg]
    simp [h3, errsOf]
  · intro p hp
    rw [hmain] at hp
    exact Except.noConfusion hp
  · intro now o2 ev hpay heq
    obtain ⟨hb2, ht2, hp2⟩ :=
      @parseEventOf_ok_inv ClickPayload "click" parseClickPayload now o2 ev heq
    simp [parsePayloadWith, hpay, hmain] at hp2

/-- C4 witness: the enumeration theorem applied to an input missing both
required fields and carrying a non-string element_classes entry. -/
theorem c4_schema_error_enumeration_witness :
    (isErr (parseStrField badClickInput "element_id") = true ∨
      isErr (parseStrListDefault badClickInput "element_classes") = true ∨
      isErr (parseIntDictField badClickInput "position") = true) ∧
    (parseClickPayload badClickInput = .error
      (errsOf (parseStrField badClickInput "element_id") ++
        errsOf (parseStrListDefault badClickInput "element_classes") ++
        errsOf (parseIntDictField badClickInput "position")) ∧
    (getField badClickInput "element_id" = none →
      "element_id: missing" ∈ errsOf (parseStrField badClickInput "element_id")) ∧
    (getField badClickInput "position" = none →
      "position: missing" ∈ errsOf (parseIntDictField badClickInput "position")) ∧
    (∀ p, parseClickPayload badClickInput ≠ .ok p) ∧
    (∀ now o2 ev, getField o2 "payload" = some (.obj badClickInput) →
      parseClickEvent now o2 ≠ .ok ev)) := by
  exact ⟨Or.inl (by decide), c4_schema_error_enumeration badClickInput (Or.inl (by decide))⟩

/-- C5 counterexample: an input with the explicit unknown event_type
bogus_event and a valid keypress payload is accepted — resolution does not
fail on an unrecognized tag, it keeps the tag verbatim. -/
theorem c5_counterexample :
    parseEventModel tsA
      (eventObj uuidA uuidB urlA tsA "bogus_event" (keypressObj "a" "KeyA" false false false false "input1")) =
      .ok (.keypress ⟨⟨uuidA, uuidB, urlA, tsA⟩, "bogus_event",
        ⟨"a", "KeyA", false, false, false, false, "input1"⟩⟩) ∧
    knownEventTags.contains "bogus_event" = false := by
  exact ⟨rfl, rfl⟩

/-- C5 (amended): an explicit event_type outside the five known tags does
not by itself cause resolution failure — a record carrying an unknown tag
together with a payload validating some schema is accepted with the tag
kept verbatim, and resolution fails only when the payload validates under
no schema. -/
theorem c5_unknown_tag_not_rejected (now sid wid url ts tag : String)
    (hs : isUuidString sid = true) (hw : isUuidString wid = true)
    (htag : knownEventTags.contains tag = false) (ow oh nw nh : Int) :
    knownEventTags.contains tag = false ∧
    parseEventModel now (eventObj sid wid url ts tag (windowObj ow oh nw nh)) =
      .ok (.window_resize ⟨⟨sid, wid, url, ts⟩, tag, ⟨ow, oh, nw, nh⟩⟩) ∧
    isErr (parseEventModel now (eventObj sid wid url ts tag [])) = true := by
  refine ⟨htag, ?_, ?_⟩
  · exact parseEventModel_window_resize (isErr_parseEventOf_payload rfl)
      (isErr_parseEventOf_payload rfl) (isErr_parseEventOf_payload rfl)
      (isErr_parseEventOf_payload rfl)
      (parseEventOf_ok (parseBaseEvent_eventObj _ _ _ _ _ _ _ hs hw) rfl rfl)
  · exact isErr_parseEventModel (isErr_parseEventOf_payload rfl)
      (isErr_parseEventOf_payload rfl) (isErr_parseEventOf_payload rfl)
      (isErr_parseEventOf_payload rfl) (isErr_parseEventOf_payload rfl)

/-- C5 witness: the theorem applied to a concrete unknown tag. -/
theorem c5_unknown_tag_not_rejected_witness :
    isUuidString uuidA = true ∧ isUuidString uuidB = true ∧
    (knownEventTags.contains "totally_new_tag" = false ∧
    parseEventModel tsA (eventObj uuidA uuidB urlA tsA "totally_new_tag" (windowObj 800 600 1024 768)) =
      .ok (.window_resize ⟨⟨uuidA, uuidB, urlA, tsA⟩, "totally_new_tag", ⟨800, 600, 1024, 768⟩⟩) ∧
    isErr (parseEventModel tsA (eventObj uuidA uuidB urlA tsA "totally_new_tag" [])) = true) := by
  exact ⟨by decide, by decide,
    c5_unknown_tag_not_rejected tsA uuidA uuidB urlA tsA "totally_new_tag"
      (by decide) (by decide) (by decide) 800 600 1024 768⟩

/-- C6: for every input record lacking an explicit event_type field, union
resolution equals the resolution policy of the spec — structural matching
attempted against the payload schemas in the fixed precedence order Click,
Scroll, MouseMovement, Keypress, WindowResize, accepting the first schema
that fully validates. -/
theorem c6_structural_matching_precedence (now : String) (o : List (String × JsonValue))
    (h : getField o "event_type" = none) :
    getField o "event_type" = none ∧
    okValue (parseEventModel now o) = specStructuralResolution now o := by
  refine ⟨h, ?_⟩
  cases hc : parseClickEvent now o <;>
    cases hsc : parseScrollEvent now o <;>
      cases hm : parseMouseMovementEvent now o <;>
        cases hk : parseKeypressEvent now o <;>
          cases hw2 : parseWindowResizeEvent now o <;>
    simp [parseEventModel, specStructuralResolution, tryAll, okValue, hc, hsc, hm, hk, hw2]

/-- C6 witness: the precedence theorem applied to a tagless scroll
record. -/
theorem c6_structural_matching_precedence_witness :
    getField (eventObjNoTag uuidA uuidB urlA tsA (scrollObj 100 55 768 2048)) "event_type" = none ∧
    okValue (parseEventModel tsA (eventObjNoTag uuidA uuidB urlA tsA (scrollObj 100 55 768 2048))) =
      specStructuralResolution tsA (eventObjNoTag uuidA uuidB urlA tsA (scrollObj 100 55 768 2048)) := by
  exact (c6_structural_matching_precedence tsA
    (eventObjNoTag uuidA uuidB urlA tsA (scrollObj 100 55 768 2048)) rfl)

/-- C7 counterexample: a batch payload whose events list is empty is
accepted by validation, so a Batch does not wrap a non-empty sequence —
emptiness is not rejected. -/
theorem c7_counterexample :
    parseBatchEventPayload tsA [("events", JsonValue.list [])] = .ok ⟨[]⟩ := rfl

/-- C7 (amended): a Batch wraps an ordered but possibly empty sequence of
Events: the empty events list is accepted, and when the events list
validates, the resulting sequence pairs the inputs with their validated
Events elementwise in insertion order. -/
theorem c7_batch_allows_empty_and_preserves_order (now : String) (xs : List JsonValue)
    (es : List EventModel) (h : validateEventsList now xs = .ok es) :
    parseBatchEventPayload now [("events", JsonValue.list xs)] = .ok ⟨es⟩ ∧
    List.Forall₂ (fun v e => validateEventItem now v = .ok e) xs es ∧
    parseBatchEventPayload now [("events", JsonValue.list [])] = .ok ⟨[]⟩ := by
  refine ⟨?_, ?_, rfl⟩
  · have hg : getField [("events", JsonValue.list xs)] "events" = some (.list xs) := rfl
    simp [parseBatchEventPayload, hg, h]
  · induction xs generalizing es with
    | nil =>
      simp [validateEventsList] at h
      subst h
      exact List.Forall₂.nil
    | cons v rest ih =>
      simp only [validateEventsList] at h
      cases hhead : validateEventItem now v with
      | error f =>
        rw [hhead] at h
        cases hrest : validateEventsList now rest <;> rw [hrest] at h <;> simp at h
      | ok e =>
        rw [hhead] at h
        cases hrest : validateEventsList now rest with
        | error fs => rw [hrest] at h; simp at h
        | ok es2 =>
          rw [hrest] at h
          simp at h
          subst h
          exact List.Forall₂.cons hhead (ih es2 hrest)

/-- C7 witness: the batch theorem applied to a one-element batch. -/
theorem c7_batch_allows_empty_and_preserves_order_witness :
    validateEventsList tsA batchInput = .ok [emC] ∧
    (parseBatchEventPayload tsA [("events", JsonValue.list batchInput)] = .ok ⟨[emC]⟩ ∧
    List.Forall₂ (fun v e => validateEventItem tsA v = .ok e) batchInput [emC] ∧
    parseBatchEventPayload tsA [("events", JsonValue.list [])] = .ok ⟨[]⟩) := by
  exact ⟨rfl, c7_batch_allows_empty_and_preserves_order tsA batchInput [emC] rfl⟩

end ActivityMonitor
